import Mathlib

/-!
Verification of the `terraform-review-agent` Lambda function
(`src/terraform-review-agent/lambda/lambda_function.py`).

The Python code is shallowly embedded: JSON-like Python values are the
inductive type `JValue`; Python exceptions are `PyErr` and fallible code
returns `Except PyErr _`; the process-global credential cache and the
count of secret-store fetches form the state `GState`; the two external
services (the secret store and the LLM HTTP endpoint) are modelled by a
`World` record giving the outcome each would produce for this invocation.
A second, heap-based embedding of the extractor (`Heap`, `extractH`) makes
object identity explicit in order to state the no-mutation / freshness
claim about `extract_relevant_findings`.
-/

/-- JSON-like Python values: `None`, `bool`, `int`, `str`, `list`, `dict`
(string keys, as produced by `json.loads`). -/
inductive JValue where
  | null : JValue
  | bool : Bool → JValue
  | num : Int → JValue
  | str : String → JValue
  | arr : List JValue → JValue
  | obj : List (String × JValue) → JValue

/-- Python exceptions that the embedded code can raise. -/
inductive PyErr where
  | keyError : String → PyErr
  | typeError : String → PyErr
  | attributeError : String → PyErr
  | indexError : String → PyErr
  | other : String → PyErr
deriving DecidableEq

/-- Python `str(e)` for an exception `e` (for `KeyError` the single string
argument is shown in repr form, i.e. quoted). -/
def PyErr.toStr : PyErr → String
  | .keyError k => "'" ++ k ++ "'"
  | .typeError m => m
  | .attributeError m => m
  | .indexError m => m
  | .other m => m

/-- Python `type(v).__name__` for the embedded values. -/
def pyTypeName : JValue → String
  | .null => "NoneType"
  | .bool _ => "bool"
  | .num _ => "int"
  | .str _ => "str"
  | .arr _ => "list"
  | .obj _ => "dict"

/-- Python truthiness of a value (`bool(v)`). -/
def truthy : JValue → Bool
  | .null => false
  | .bool b => b
  | .num n => n != 0
  | .str s => !s.isEmpty
  | .arr xs => !xs.isEmpty
  | .obj fs => !fs.isEmpty

/-- First-match association lookup in a dict's field list. -/
def lookupField : List (String × JValue) → String → Option JValue
  | [], _ => none
  | (k, v) :: rest, key => if k = key then some v else lookupField rest key

/-- Python `d.get(key, default)`: succeeds on dicts (returning the stored
value or the default), raises `AttributeError` on every other type. -/
def pyGet (v : JValue) (key : String) (default : JValue) : Except PyErr JValue :=
  match v with
  | .obj fs => .ok ((lookupField fs key).getD default)
  | other => .error (.attributeError
      ("'" ++ pyTypeName other ++ "' object has no attribute 'get'"))

/-- Python subscript `v[key]` with a string key: `KeyError` when the key is
missing from a dict, `TypeError` on non-dicts. -/
def getItemStr (v : JValue) (key : String) : Except PyErr JValue :=
  match v with
  | .obj fs =>
    match lookupField fs key with
    | some x => .ok x
    | none => .error (.keyError key)
  | .arr _ => .error (.typeError "list indices must be integers or slices, not str")
  | .str _ => .error (.typeError "string indices must be integers")
  | other => .error (.typeError
      ("'" ++ pyTypeName other ++ "' object is not subscriptable"))

/-- Python subscript `v[i]` with a nonnegative integer index. -/
def getItemNat (v : JValue) (i : Nat) : Except PyErr JValue :=
  match v with
  | .arr xs =>
    match xs.get? i with
    | some x => .ok x
    | none => .error (.indexError "list index out of range")
  | .str s =>
    match s.toList.get? i with
    | some c => .ok (.str (String.singleton c))
    | none => .error (.indexError "string index out of range")
  | .obj _ => .error (.keyError (toString i))
  | other => .error (.typeError
      ("'" ++ pyTypeName other ++ "' object is not subscriptable"))

/-- Python iteration `for x in v`: lists yield their elements, strings
their characters, dicts their keys; other types raise `TypeError`. -/
def pyIter : JValue → Except PyErr (List JValue)
  | .arr xs => .ok xs
  | .str s => .ok (s.toList.map (fun c => .str (String.singleton c)))
  | .obj fs => .ok (fs.map (fun kv => .str kv.1))
  | other => .error (.typeError
      ("'" ++ pyTypeName other ++ "' object is not iterable"))

/-- One hexadecimal digit (lower case), as used in JSON escapes. -/
def jsonHexDigit (n : Nat) : Char :=
  if n < 10 then Char.ofNat (48 + n) else Char.ofNat (87 + n)

/-- Four-digit hexadecimal rendering of `n` (for JSON escape sequences). -/
def jsonHex4 (n : Nat) : String :=
  String.mk [jsonHexDigit (n / 4096 % 16), jsonHexDigit (n / 256 % 16),
             jsonHexDigit (n / 16 % 16), jsonHexDigit (n % 16)]

/-- Escaping of a single character as in Python `json.dumps` with the
default `ensure_ascii=True`: the standard two-character escapes, control
characters and all non-ASCII as backslash-u sequences (astral code points
as surrogate pairs). -/
def pyJsonEscapeChar (c : Char) : String :=
  if c = Char.ofNat 34 then "\\\""
  else if c = Char.ofNat 92 then "\\\\"
  else if c = Char.ofNat 10 then "\\n"
  else if c = Char.ofNat 13 then "\\r"
  else if c = Char.ofNat 9 then "\\t"
  else if c = Char.ofNat 8 then "\\b"
  else if c = Char.ofNat 12 then "\\f"
  else if c.toNat < 32 then "\\u" ++ jsonHex4 c.toNat
  else if c.toNat < 127 then String.singleton c
  else if c.toNat ≤ 65535 then "\\u" ++ jsonHex4 c.toNat
  else
    "\\u" ++ jsonHex4 (55296 + (c.toNat - 65536) / 1024) ++
    "\\u" ++ jsonHex4 (56320 + (c.toNat - 65536) % 1024)

/-- A JSON string literal: quotes around the escaped characters. -/
def pyJsonQuoteStr (s : String) : String :=
  "\"" ++ String.join (s.toList.map pyJsonEscapeChar) ++ "\""

/-- Indentation prefix for nesting level `lvl` under `indent=2`. -/
def jsonPad (lvl : Nat) : String :=
  String.join (List.replicate (2 * lvl) " ")

mutual

/-- Python `json.dumps(v, indent=2)` at nesting level `lvl`: multi-line
rendering, two-space indentation, items separated by a comma and newline,
keys followed by a colon and a space; empty containers stay on one line. -/
def pyJsonDumps2 : JValue → Nat → String
  | .null, _ => "null"
  | .bool true, _ => "true"
  | .bool false, _ => "false"
  | .num n, _ => toString n
  | .str s, _ => pyJsonQuoteStr s
  | .arr [], _ => "[]"
  | .arr (x :: xs), lvl =>
      "[\n" ++ String.intercalate ",\n" (pyJsonDumps2List (x :: xs) (lvl + 1)) ++
      "\n" ++ jsonPad lvl ++ "]"
  | .obj [], _ => "\x7b\x7d"
  | .obj (f :: fs), lvl =>
      "\x7b\n" ++ String.intercalate ",\n" (pyJsonDumps2Fields (f :: fs) (lvl + 1)) ++
      "\n" ++ jsonPad lvl ++ "\x7d"

/-- The rendered, indented items of a JSON array. -/
def pyJsonDumps2List : List JValue → Nat → List String
  | [], _ => []
  | x :: xs, lvl => (jsonPad lvl ++ pyJsonDumps2 x lvl) :: pyJsonDumps2List xs lvl

/-- The rendered, indented entries of a JSON object. -/
def pyJsonDumps2Fields : List (String × JValue) → Nat → List String
  | [], _ => []
  | (k, v) :: fs, lvl =>
      (jsonPad lvl ++ pyJsonQuoteStr k ++ ": " ++ pyJsonDumps2 v lvl) ::
      pyJsonDumps2Fields fs lvl

end

mutual

/-- Python `json.dumps(v)` with default separators (single line). -/
def pyJsonDumps : JValue → String
  | .null => "null"
  | .bool true => "true"
  | .bool false => "false"
  | .num n => toString n
  | .str s => pyJsonQuoteStr s
  | .arr xs => "[" ++ String.intercalate ", " (pyJsonDumpsList xs) ++ "]"
  | .obj fs => "\x7b" ++ String.intercalate ", " (pyJsonDumpsFields fs) ++ "\x7d"

/-- The rendered items of a JSON array (compact form). -/
def pyJsonDumpsList : List JValue → List String
  | [] => []
  | x :: xs => pyJsonDumps x :: pyJsonDumpsList xs

/-- The rendered entries of a JSON object (compact form). -/
def pyJsonDumpsFields : List (String × JValue) → List String
  | [] => []
  | (k, v) :: fs => (pyJsonQuoteStr k ++ ": " ++ pyJsonDumps v) :: pyJsonDumpsFields fs

end

mutual

/-- Python `repr(v)` for the embedded values (string escaping inside the
repr is not modelled; this only feeds the URL interpolation below). -/
def pyRepr : JValue → String
  | .null => "None"
  | .bool true => "True"
  | .bool false => "False"
  | .num n => toString n
  | .str s => "'" ++ s ++ "'"
  | .arr xs => "[" ++ String.intercalate ", " (pyReprList xs) ++ "]"
  | .obj fs => "\x7b" ++ String.intercalate ", " (pyReprFields fs) ++ "\x7d"

/-- Item reprs of a Python list. -/
def pyReprList : List JValue → List String
  | [] => []
  | x :: xs => pyRepr x :: pyReprList xs

/-- Entry reprs of a Python dict. -/
def pyReprFields : List (String × JValue) → List String
  | [] => []
  | (k, v) :: fs => ("'" ++ k ++ "': " ++ pyRepr v) :: pyReprFields fs

end

/-- Python `str(v)`: identity on strings, `repr` otherwise. -/
def pyStr : JValue → String
  | .str s => s
  | v => pyRepr v

/-- Model name constant from the source. -/
def GEMINI_MODEL : String := "gemini-2.5-flash"

/-- Secret identifier constant from the source. -/
def SECRET_NAME : String := "gemini-api-key-2"

/-- Region constant from the source. -/
def REGION_NAME : String := "us-east-1"

/-- Outcome of the single `urllib.request.urlopen` call for this
invocation: a 2xx response whose body is the given string, an
`urllib.error.HTTPError` (non-2xx) whose `e.read().decode()` is the given
body, or any other exception (network error, timeout) with `str(e)` given. -/
inductive HttpOutcome where
  | success : String → HttpOutcome
  | httpError : String → HttpOutcome
  | failure : String → HttpOutcome

/-- The external environment of one invocation: what the secret store
returns for `get_secret_value` (a response mapping, or an exception), the
behaviour of the standard-library `json.loads` on strings, and the outcome
of the HTTP call to the LLM endpoint. -/
structure World where
  getSecretValue : Except PyErr JValue
  jsonLoads : String → Except PyErr JValue
  httpOutcome : HttpOutcome

/-- Process-global state: the `GEMINI_API_KEY` module global (initially
`None`) and an instrumentation counter of how many times the secret store
has been contacted (`client.get_secret_value` calls). -/
structure GState where
  geminiApiKey : JValue
  fetchCount : Nat

/-- The state of a freshly started process: `GEMINI_API_KEY = None`. -/
def initState : GState := { geminiApiKey := JValue.null, fetchCount := 0 }

/-- The fetch part of `get_gemini_api_key` (everything after the cache
test): `client.get_secret_value(...)`, then
`json.loads(response["SecretString"])`, then `secret["GEMINI_API_KEY"]`.
Pure in the process state, so it is factored out of the stateful wrapper. -/
def fetch_secret_key (w : World) : Except PyErr JValue :=
  match w.getSecretValue with
  | .error e => .error e
  | .ok response =>
    match getItemStr response "SecretString" with
    | .error e => .error e
    | .ok (.str secretString) =>
      match w.jsonLoads secretString with
      | .error e => .error e
      | .ok secret => getItemStr secret "GEMINI_API_KEY"
    | .ok sv => .error (.typeError
        ("the JSON object must be str, bytes or bytearray, not " ++ pyTypeName sv))

/-- Function `get_gemini_api_key()`: return the global if it is truthy; otherwise
contact the secret store (counted in `fetchCount`), run the fetch chain,
store the obtained key in the global and return it. Every step after the
cache test can raise; the raise propagates to the caller (there is no try
block in this function). -/
def get_gemini_api_key (w : World) (s : GState) : Except PyErr JValue × GState :=
  if truthy s.geminiApiKey then (.ok s.geminiApiKey, s)
  else
    let s1 : GState := { s with fetchCount := s.fetchCount + 1 }
    match fetch_secret_key w with
    | .error e => (.error e, s1)
    | .ok key => (.ok key, { s1 with geminiApiKey := key })

/-- The body of the `for v in violations` loop in
`extract_relevant_findings`: the appended dict with the eight fields, each
read with `v.get(...)` (default `None`). -/
def extract_violation (v : JValue) : Except PyErr JValue := do
  let rule_id ← pyGet v "rule_id" JValue.null
  let rule_name ← pyGet v "rule_name" JValue.null
  let severity ← pyGet v "severity" JValue.null
  let description ← pyGet v "description" JValue.null
  let resource_type ← pyGet v "resource_type" JValue.null
  let resource_name ← pyGet v "resource_name" JValue.null
  let file ← pyGet v "file" JValue.null
  let line ← pyGet v "line" JValue.null
  return JValue.obj [("rule_id", rule_id), ("rule_name", rule_name),
    ("severity", severity), ("description", description),
    ("resource_type", resource_type), ("resource_name", resource_name),
    ("file", file), ("line", line)]

/-- The `for v in violations` loop of `extract_relevant_findings`,
appending the structured record of each element in input order. -/
def extract_violations_loop : List JValue → Except PyErr (List JValue)
  | [] => .ok []
  | v :: rest =>
    match extract_violation v with
    | .error e => .error e
    | .ok sv =>
      match extract_violations_loop rest with
      | .error e => .error e
      | .ok srest => .ok (sv :: srest)

/-- Function `extract_relevant_findings(terrascan_results)`: read `violations`
(default `[]`) and `scan_summary` (default `{}`), build the summary from
`violated_policies` / `high` / `medium` / `low` (default `0` each), then
map the loop body over the violations. Any step can raise (e.g. `.get` on
a non-dict) and the raise propagates. -/
def extract_relevant_findings (terrascan_results : JValue) : Except PyErr JValue :=
  match pyGet terrascan_results "violations" (JValue.arr []) with
  | .error e => .error e
  | .ok violations =>
    match pyGet terrascan_results "scan_summary" (JValue.obj []) with
    | .error e => .error e
    | .ok summary =>
      match pyGet summary "violated_policies" (JValue.num 0) with
      | .error e => .error e
      | .ok total_violations =>
        match pyGet summary "high" (JValue.num 0) with
        | .error e => .error e
        | .ok high =>
          match pyGet summary "medium" (JValue.num 0) with
          | .error e => .error e
          | .ok medium =>
            match pyGet summary "low" (JValue.num 0) with
            | .error e => .error e
            | .ok low =>
              match pyIter violations with
              | .error e => .error e
              | .ok vlist =>
                match extract_violations_loop vlist with
                | .error e => .error e
                | .ok structuredViolations =>
                  .ok (JValue.obj [
                    ("summary", JValue.obj [("total_violations", total_violations),
                      ("high", high), ("medium", medium), ("low", low)]),
                    ("violations", JValue.arr structuredViolations)])

/-- The literal part of the f-string in `build_prompt`: everything up to
and including `Findings:` and the newline before the interpolated JSON.
It is written as the concatenation of literal pieces around the three
verdict tokens, so that their occurrence in the prompt is syntactic; the
concatenated value is exactly the source literal. -/
def promptPart1 : String := "\nYou are a senior DevOps and Terraform security reviewer with strong AWS architecture experience.\n\nAnalyze the Terrascan findings below and provide:\n\n1. 🚨 Security issues ordered by severity\n2. 🛠 Terraform remediation suggestions\n3. ⚖️ Production risk explanation\n4. 📌 Final verdict:\n   - "

/-- Prompt literal between `APPROVE` and `APPROVE_WITH_CHANGES`. -/
def promptPart2 : String := "\n   - "

/-- Prompt literal between `APPROVE_WITH_CHANGES` and `REJECT`. -/
def promptPart3 : String := "\n   - "

/-- Prompt literal from after `REJECT` to the end of the header. -/
def promptPart4 : String := "\n\nEvaluation rules (IMPORTANT):\n- If the application is exposed ONLY over HTTP (no HTTPS listener, no TLS), the verdict MUST be **REJECT**\n- If HTTPS is configured at an AWS Application Load Balancer using ACM (TLS termination at ALB), this is a **valid and common AWS architecture**\n- Do NOT reject solely because traffic between ALB and targets uses HTTP\n- In such cases, prefer **APPROVE_WITH_CHANGES** with a clear security justification\n- End-to-end encryption (ALB → target HTTPS) is a best practice but NOT mandatory unless explicitly required\n- VPC Flow Logs, X-Ray, and similar observability issues should NOT cause rejection alone\n- Ignore Terrascan scan_errors\n- Do NOT repeat raw JSON\n\nOutput guidelines:\n- Be concise\n- Use bullet points\n- Focus on AWS services (ALB, VPC, IAM, Lambda, ECS)\n- Use real-world production reasoning, not scanner-only logic\n\nFindings:\n"

/-- The whole f-string literal of `build_prompt` before the interpolation. -/
def promptHeader : String :=
  promptPart1 ++ "APPROVE" ++ promptPart2 ++ "APPROVE_WITH_CHANGES" ++
  promptPart3 ++ "REJECT" ++ promptPart4

/-- Function `build_prompt(findings)`: the f-string literal followed by
`json.dumps(findings, indent=2)` and the final newline before the closing
triple quote. Pure: no state, no world. -/
def build_prompt (findings : JValue) : String :=
  promptHeader ++ pyJsonDumps2 findings 0 ++ "\n"

/-- The parsing part of the try block in `call_gemini`:
`json.loads(response.read())` followed by
`result["candidates"][0]["content"]["parts"][0]["text"]`. -/
def gemini_parse_response (w : World) (body : String) : Except PyErr JValue := do
  let result ← w.jsonLoads body
  let candidates ← getItemStr result "candidates"
  let cand0 ← getItemNat candidates 0
  let content ← getItemStr cand0 "content"
  let parts ← getItemStr content "parts"
  let part0 ← getItemNat parts 0
  getItemStr part0 "text"

/-- Function `call_gemini(prompt)`: resolve the API key (outside the try block — a
raise here propagates to the caller), build the URL and request payload,
then inside the try block perform the HTTP call: an `HTTPError` becomes
the string `"Gemini API HTTP error: " ++ body`, any other exception
(transport failure or a failure while parsing the response) becomes
`"Unexpected error calling Gemini: " ++ str(e)`; a well-shaped response
yields the first candidate's first part's `text` value. -/
def call_gemini (w : World) (s : GState) (prompt : String) : Except PyErr JValue × GState :=
  match get_gemini_api_key w s with
  | (.error e, s1) => (.error e, s1)
  | (.ok api_key, s1) =>
    let url : String := "https://generativelanguage.googleapis.com/v1beta/models/"
      ++ GEMINI_MODEL ++ ":generateContent?key=" ++ pyStr api_key
    let payload : JValue := JValue.obj [("contents", JValue.arr
      [JValue.obj [("parts", JValue.arr [JValue.obj [("text", JValue.str prompt)]])]])]
    let requestData : String := pyJsonDumps payload
    match w.httpOutcome with
    | .httpError body =>
      (.ok (.str ("Gemini API HTTP error: " ++ body)), s1)
    | .failure msg =>
      (.ok (.str ("Unexpected error calling Gemini: " ++ msg)), s1)
    | .success body =>
      match gemini_parse_response w body with
      | .ok text => (.ok text, s1)
      | .error e =>
        (.ok (.str ("Unexpected error calling Gemini: " ++ PyErr.toStr e)), s1)

/-- The body of the try block of `lambda_handler`: read `event.get("results")`;
if falsy return the 400 response; otherwise extract, build the prompt, call
the review client and return the 200 response carrying
`findings["summary"]` and the review. Raises propagate to `lambda_handler`. -/
def handler_body (w : World) (s : GState) (event : JValue) : Except PyErr JValue × GState :=
  match pyGet event "results" JValue.null with
  | .error e => (.error e, s)
  | .ok results =>
    if !truthy results then
      (.ok (JValue.obj [("statusCode", JValue.num 400),
        ("error", JValue.str "Missing Terrascan results in payload")]), s)
    else
      match extract_relevant_findings results with
      | .error e => (.error e, s)
      | .ok findings =>
        let prompt := build_prompt findings
        match call_gemini w s prompt with
        | (.error e, s1) => (.error e, s1)
        | (.ok review, s1) =>
          match getItemStr findings "summary" with
          | .error e => (.error e, s1)
          | .ok summ =>
            (.ok (JValue.obj [("statusCode", JValue.num 200),
              ("verdict_summary", summ), ("ai_review", review)]), s1)

/-- Function `lambda_handler(event, context)`: run the body inside `try`; any raise
is caught and turned into the 500 response with `str(e)`. -/
def lambda_handler (w : World) (s : GState) (event : JValue) : JValue × GState :=
  match handler_body w s event with
  | (.ok resp, s1) => (resp, s1)
  | (.error e, s1) =>
    (JValue.obj [("statusCode", JValue.num 500),
      ("error", JValue.str (PyErr.toStr e))], s1)

/-- A Python heap cell for the aliasing-aware embedding of the extractor:
a list object holding references to its elements, a dict object holding
references to its values, or an immutable scalar. -/
inductive HCell where
  | hlist : List Nat → HCell
  | hdict : List (String × Nat) → HCell
  | hscalar : JValue → HCell

/-- A heap: the next fresh address and the cell at every address. -/
structure Heap where
  next : Nat
  cell : Nat → HCell

/-- Allocate a fresh object, returning the new heap and its address. -/
def halloc (h : Heap) (c : HCell) : Heap × Nat :=
  ({ next := h.next + 1,
     cell := fun a => if a = h.next then c else h.cell a }, h.next)

/-- Overwrite the object at an existing address (list mutation). -/
def hupdate (h : Heap) (addr : Nat) (c : HCell) : Heap :=
  { h with cell := fun a => if a = addr then c else h.cell a }

/-- First-match association lookup in a dict cell's field list. -/
def lookupRefField : List (String × Nat) → String → Option Nat
  | [], _ => none
  | (k, r) :: rest, key => if k = key then some r else lookupRefField rest key

/-- Heap version of Python `d.get(key, default)`: a read-only operation
returning a reference (the stored one, or the default reference). -/
def hDictGet (h : Heap) (dref : Nat) (key : String) (dflt : Nat) : Except PyErr Nat :=
  match h.cell dref with
  | .hdict fields => .ok ((lookupRefField fields key).getD dflt)
  | .hlist _ => .error (.attributeError "'list' object has no attribute 'get'")
  | .hscalar v => .error (.attributeError
      ("'" ++ pyTypeName v ++ "' object has no attribute 'get'"))

/-- The eight reads of the loop body (heap untouched: `.get` only reads). -/
def hViolationFields (h : Heap) (noneRef vref : Nat) : Except PyErr (List (String × Nat)) := do
  let rule_id ← hDictGet h vref "rule_id" noneRef
  let rule_name ← hDictGet h vref "rule_name" noneRef
  let severity ← hDictGet h vref "severity" noneRef
  let description ← hDictGet h vref "description" noneRef
  let resource_type ← hDictGet h vref "resource_type" noneRef
  let resource_name ← hDictGet h vref "resource_name" noneRef
  let file ← hDictGet h vref "file" noneRef
  let line ← hDictGet h vref "line" noneRef
  return [("rule_id", rule_id), ("rule_name", rule_name), ("severity", severity),
    ("description", description), ("resource_type", resource_type),
    ("resource_name", resource_name), ("file", file), ("line", line)]

/-- Heap version of the loop body: read the eight fields of the input
record, then allocate the fresh structured violation dict. -/
def extract_violationH (h : Heap) (noneRef vref : Nat) : Except PyErr (Heap × Nat) :=
  match hViolationFields h noneRef vref with
  | .error e => .error e
  | .ok fields => .ok (halloc h (.hdict fields))

/-- Heap version of the `for` loop: build each structured violation and
append its reference to the output list object at `outViol` (an in-place
mutation of that — freshly allocated — list). -/
def extractLoopH (noneRef outViol : Nat) : Heap → List Nat → Except PyErr Heap
  | h, [] => .ok h
  | h, vref :: rest =>
    match extract_violationH h noneRef vref with
    | .error e => .error e
    | .ok (h1, nref) =>
      match h1.cell outViol with
      | .hlist elems => extractLoopH noneRef outViol (hupdate h1 outViol (.hlist (elems ++ [nref]))) rest
      | _ => .error (.other "append target is not a list")

/-- Heap embedding of `extract_relevant_findings`, making allocation and
mutation explicit: the two `.get` default arguments `[]` and `{}` are
fresh objects, the `None` and `0` defaults are modelled as one shared
reference each, the structured summary dict, output violations list and
outer dict are freshly allocated, and the loop appends into the fresh
list. Dict-key and string iteration is not modelled here (the loop
requires a list object); the value-level embedding above is the authority
for those inputs. -/
def extractH (h0 : Heap) (trRef : Nat) : Except PyErr (Heap × Nat) :=
  let al1 := halloc h0 (.hlist [])
  match hDictGet al1.1 trRef "violations" al1.2 with
  | .error e => .error e
  | .ok violations =>
    let al2 := halloc al1.1 (.hdict [])
    match hDictGet al2.1 trRef "scan_summary" al2.2 with
    | .error e => .error e
    | .ok summary =>
      let al3 := halloc al2.1 (.hscalar JValue.null)
      let al4 := halloc al3.1 (.hscalar (JValue.num 0))
      let noneRef := al3.2
      let zeroRef := al4.2
      let h4 := al4.1
      match hDictGet h4 summary "violated_policies" zeroRef with
      | .error e => .error e
      | .ok tv =>
        match hDictGet h4 summary "high" zeroRef with
        | .error e => .error e
        | .ok hi =>
          match hDictGet h4 summary "medium" zeroRef with
          | .error e => .error e
          | .ok md =>
            match hDictGet h4 summary "low" zeroRef with
            | .error e => .error e
            | .ok lo =>
              let al5 := halloc h4 (.hdict [("total_violations", tv), ("high", hi),
                ("medium", md), ("low", lo)])
              let al6 := halloc al5.1 (.hlist [])
              let al7 := halloc al6.1 (.hdict [("summary", al5.2), ("violations", al6.2)])
              match al7.1.cell violations with
              | .hlist vrefs =>
                match extractLoopH noneRef al6.2 al7.1 vrefs with
                | .error e => .error e
                | .ok hFinal => .ok (hFinal, al7.2)
              | .hdict _ => .error (.typeError "dict-key iteration not modelled in the heap embedding")
              | .hscalar v => .error (.typeError ("'" ++ pyTypeName v ++ "' object is not iterable"))

/-- The `statusCode` entry of a response object (`none` for non-dicts). -/
def statusCodeOf : JValue → Option JValue
  | .obj fields => lookupField fields "statusCode"
  | _ => none

/-- A concrete Terrascan violation record used in the concrete instances. -/
def sampleViolation : JValue :=
  JValue.obj [("rule_id", JValue.str "AWS.1"), ("severity", JValue.str "HIGH")]

/-- A concrete `results` payload with one violation and a summary block. -/
def sampleResults : JValue :=
  JValue.obj [("violations", JValue.arr [sampleViolation]),
    ("scan_summary", JValue.obj [("violated_policies", JValue.num 1), ("high", JValue.num 1)])]

/-- A concrete request event carrying `sampleResults`. -/
def sampleEvent : JValue := JValue.obj [("results", sampleResults)]

/-- The summary the extractor produces for `sampleResults`. -/
def sampleSummary : JValue :=
  JValue.obj [("total_violations", JValue.num 1), ("high", JValue.num 1),
    ("medium", JValue.num 0), ("low", JValue.num 0)]

/-- The structured record the extractor produces for `sampleViolation`. -/
def sampleStructuredViolation : JValue :=
  JValue.obj [("rule_id", JValue.str "AWS.1"), ("rule_name", JValue.null),
    ("severity", JValue.str "HIGH"), ("description", JValue.null),
    ("resource_type", JValue.null), ("resource_name", JValue.null),
    ("file", JValue.null), ("line", JValue.null)]

/-- The findings the extractor produces for `sampleResults`. -/
def sampleFindings : JValue :=
  JValue.obj [("summary", sampleSummary),
    ("violations", JValue.arr [sampleStructuredViolation])]

/-- A world whose secret store raises on `get_secret_value`. -/
def wSecretFail : World :=
  { getSecretValue := .error (.other "Secrets Manager unavailable"),
    jsonLoads := fun _ => .error (.other "invalid json"),
    httpOutcome := .failure "unreachable" }

/-- A world with a working secret store (credential `k-123`) whose LLM
endpoint answers with a non-2xx `HTTPError` carrying body `quota exceeded`. -/
def wHttpErr : World :=
  { getSecretValue := .ok (JValue.obj [("SecretString", JValue.str "sb")]),
    jsonLoads := fun _ => .ok (JValue.obj [("GEMINI_API_KEY", JValue.str "k-123")]),
    httpOutcome := .httpError "quota exceeded" }

/-- A world whose secret store returns the empty string as the credential. -/
def wEmptyKey : World :=
  { getSecretValue := .ok (JValue.obj [("SecretString", JValue.str "sb")]),
    jsonLoads := fun _ => .ok (JValue.obj [("GEMINI_API_KEY", JValue.str "")]),
    httpOutcome := .failure "unreachable" }

/-- The process state after one successful fetch of `k-123`. -/
def keyState : GState := { geminiApiKey := JValue.str "k-123", fetchCount := 1 }

/-- An all-zero extracted summary (input with no `scan_summary` block). -/
def zeroSummary : JValue :=
  JValue.obj [("total_violations", JValue.num 0), ("high", JValue.num 0),
    ("medium", JValue.num 0), ("low", JValue.num 0)]

/-- The findings for an input with neither violations nor summary. -/
def emptyFindings : JValue :=
  JValue.obj [("summary", zeroSummary), ("violations", JValue.arr [])]

/-- First element of the three-element mixed-severity list. -/
def mixedV1 : JValue :=
  JValue.obj [("rule_id", JValue.str "R1"), ("severity", JValue.str "HIGH")]

/-- Second element of the three-element mixed-severity list. -/
def mixedV2 : JValue :=
  JValue.obj [("rule_id", JValue.str "R2"), ("severity", JValue.str "LOW"),
    ("file", JValue.str "main.tf")]

/-- Third element of the three-element mixed-severity list. -/
def mixedV3 : JValue := JValue.obj [("severity", JValue.str "MEDIUM")]

/-- A `results` payload with the three-element list and no summary block. -/
def mixedResults : JValue :=
  JValue.obj [("violations", JValue.arr [mixedV1, mixedV2, mixedV3])]

/-- Structured form of `mixedV1`. -/
def mixedSV1 : JValue :=
  JValue.obj [("rule_id", JValue.str "R1"), ("rule_name", JValue.null),
    ("severity", JValue.str "HIGH"), ("description", JValue.null),
    ("resource_type", JValue.null), ("resource_name", JValue.null),
    ("file", JValue.null), ("line", JValue.null)]

/-- Structured form of `mixedV2`. -/
def mixedSV2 : JValue :=
  JValue.obj [("rule_id", JValue.str "R2"), ("rule_name", JValue.null),
    ("severity", JValue.str "LOW"), ("description", JValue.null),
    ("resource_type", JValue.null), ("resource_name", JValue.null),
    ("file", JValue.str "main.tf"), ("line", JValue.null)]

/-- Structured form of `mixedV3`. -/
def mixedSV3 : JValue :=
  JValue.obj [("rule_id", JValue.null), ("rule_name", JValue.null),
    ("severity", JValue.str "MEDIUM"), ("description", JValue.null),
    ("resource_type", JValue.null), ("resource_name", JValue.null),
    ("file", JValue.null), ("line", JValue.null)]

/-- A concrete input heap: address 0 the scanner dict, 1 its violations
list, 2 the single (empty) violation record; next fresh address 3. -/
def sampleHeap : Heap :=
  { next := 3,
    cell := fun a =>
      if a = 0 then HCell.hdict [("violations", 1)]
      else if a = 1 then HCell.hlist [2]
      else if a = 2 then HCell.hdict []
      else HCell.hscalar JValue.null }

/-- The heap produced by running the heap extractor on `sampleHeap`. -/
def sampleExtractResultHeap : Heap :=
  match extractH sampleHeap 0 with
  | .ok (hf, _) => hf
  | .error _ => sampleHeap

/-- Claim C3: for every request whose `results` field is absent, empty or
otherwise falsy, the handler returns exactly
`{statusCode: 400, error: "Missing Terrascan results in payload"}` and
performs no extraction, prompt building, secret fetch or LLM call — the
process state comes back unchanged. -/
theorem C3_missing_results_returns_400 (w : World) (s : GState) (event results : JValue)
    (hres : pyGet event "results" JValue.null = .ok results)
    (hfalsy : truthy results = false) :
    lambda_handler w s event =
      (JValue.obj [("statusCode", JValue.num 400),
        ("error", JValue.str "Missing Terrascan results in payload")], s) := by
  simp [lambda_handler, handler_body, hres, hfalsy]

/-- Concrete instance of C3: an event without a `results` key. -/
theorem C3_witness :
    lambda_handler wHttpErr initState (JValue.obj []) =
      (JValue.obj [("statusCode", JValue.num 400),
        ("error", JValue.str "Missing Terrascan results in payload")], initState) :=
  C3_missing_results_returns_400 wHttpErr initState (JValue.obj []) JValue.null rfl rfl

/-- Claim C9: the credential cache test is a truthiness test, not a
presence test: when the global is truthy the fetch is skipped and the
cached value is returned with the state unchanged; when it is falsy the
secret store is contacted (the fetch counter increments); in particular a
cached empty string causes a renewed fetch. -/
theorem C9_cache_check_is_truthiness (w : World) (s : GState) :
    (truthy s.geminiApiKey = true →
      get_gemini_api_key w s = (.ok s.geminiApiKey, s)) ∧
    (truthy s.geminiApiKey = false →
      (get_gemini_api_key w s).2.fetchCount = s.fetchCount + 1) ∧
    (s.geminiApiKey = JValue.str "" →
      (get_gemini_api_key w s).2.fetchCount = s.fetchCount + 1) := by
  refine ⟨fun h => by simp [get_gemini_api_key, h], fun h => ?_, fun h => ?_⟩
  · cases hf : fetch_secret_key w <;> simp [get_gemini_api_key, h, hf]
  · have hfalsy : truthy s.geminiApiKey = false := by rw [h]; rfl
    cases hf : fetch_secret_key w <;> simp [get_gemini_api_key, hfalsy, hf]

/-- Concrete instance of C9: a truthy cached key is returned without a
fetch; a cached empty string leads to a second fetch. -/
theorem C9_witness :
    get_gemini_api_key wSecretFail keyState = (.ok (JValue.str "k-123"), keyState) ∧
    (get_gemini_api_key wEmptyKey
      { geminiApiKey := JValue.str "", fetchCount := 1 }).2.fetchCount = 2 :=
  ⟨(C9_cache_check_is_truthiness wSecretFail keyState).1 rfl,
   (C9_cache_check_is_truthiness wEmptyKey
      { geminiApiKey := JValue.str "", fetchCount := 1 }).2.2 rfl⟩

/-- Counterexample to claim C8 as stated: with a secret store that returns
the empty string as the credential, two calls to `get_gemini_api_key` in
one process perform two secret-store fetches, not at most one. -/
theorem C8_counterexample :
    ((get_gemini_api_key wEmptyKey
      ((get_gemini_api_key wEmptyKey initState).2)).2).fetchCount = 2 := rfl

/-- Claim C8 (amended): the at-most-once property holds provided the
credential obtained is truthy: if a call returns key `k` with `truthy k`,
every subsequent call returns the same key and the same state and performs
no further secret-store fetch. -/
theorem C8_fetch_cached_when_truthy (w : World) (s s' : GState) (k : JValue)
    (h1 : get_gemini_api_key w s = (.ok k, s'))
    (h2 : truthy k = true) :
    get_gemini_api_key w s' = (.ok k, s') := by
  unfold get_gemini_api_key at h1
  by_cases hc : truthy s.geminiApiKey
  · rw [if_pos hc] at h1
    simp only [Prod.mk.injEq, Except.ok.injEq] at h1
    obtain ⟨hk, hs⟩ := h1
    subst hs
    simp [get_gemini_api_key, hc, hk, h2]
  · rw [if_neg hc] at h1
    cases hf : fetch_secret_key w with
    | error e => simp [hf] at h1
    | ok key =>
      rw [hf] at h1
      simp only [Prod.mk.injEq, Except.ok.injEq] at h1
      obtain ⟨hk, hs⟩ := h1
      subst hs
      have hkt : truthy key = true := by rw [hk]; exact h2
      simp [get_gemini_api_key, hkt, hk, h2]

/-- Concrete instance of amended C8: after the fetch of `k-123`, a second
call returns the cached key with the state (and fetch count) unchanged. -/
theorem C8_witness :
    get_gemini_api_key wHttpErr keyState = (.ok (JValue.str "k-123"), keyState) :=
  C8_fetch_cached_when_truthy wHttpErr initState keyState (JValue.str "k-123") rfl rfl

/-- Claim C7: `build_prompt` is deterministic — equal findings yield an
identical prompt string — and every produced prompt contains the three
verdict tokens APPROVE, APPROVE_WITH_CHANGES and REJECT. -/
theorem C7_build_prompt_deterministic_and_contains_verdicts :
    (∀ f g : JValue, f = g → build_prompt f = build_prompt g) ∧
    (∀ f : JValue,
      (∃ p q, build_prompt f = p ++ "APPROVE" ++ q) ∧
      (∃ p q, build_prompt f = p ++ "APPROVE_WITH_CHANGES" ++ q) ∧
      (∃ p q, build_prompt f = p ++ "REJECT" ++ q)) := by
  refine ⟨fun f g h => by rw [h], fun f =>
    ⟨⟨promptPart1, promptPart2 ++ "APPROVE_WITH_CHANGES" ++ promptPart3 ++ "REJECT" ++
        promptPart4 ++ pyJsonDumps2 f 0 ++ "\n", ?_⟩,
     ⟨promptPart1 ++ "APPROVE" ++ promptPart2, promptPart3 ++ "REJECT" ++
        promptPart4 ++ pyJsonDumps2 f 0 ++ "\n", ?_⟩,
     ⟨promptPart1 ++ "APPROVE" ++ promptPart2 ++ "APPROVE_WITH_CHANGES" ++ promptPart3,
        promptPart4 ++ pyJsonDumps2 f 0 ++ "\n", ?_⟩⟩⟩ <;>
  simp [build_prompt, promptHeader, String.append_assoc]

/-- Concrete instance of C7: determinism applied at a concrete findings value. -/
theorem C7_witness :
    build_prompt (JValue.obj []) = build_prompt (JValue.obj []) :=
  C7_build_prompt_deterministic_and_contains_verdicts.1 (JValue.obj []) (JValue.obj []) rfl

/-- Pointwise characterisation of a successful run of the extraction
loop: the output has the input's length and the element at each index is
the loop body's result on the input element at that index. -/
theorem extract_violations_loop_pointwise (vs : List JValue) :
    ∀ out, extract_violations_loop vs = .ok out →
      out.length = vs.length ∧
      ∀ i (hv : i < vs.length) (ho : i < out.length),
        extract_violation (vs.get ⟨i, hv⟩) = .ok (out.get ⟨i, ho⟩) := by
  induction vs with
  | nil =>
    intro out h
    simp only [extract_violations_loop, Except.ok.injEq] at h
    subst h
    exact ⟨rfl, fun i hv => absurd hv (Nat.not_lt_zero i)⟩
  | cons v rest ih =>
    intro out h
    cases hev : extract_violation v with
    | error e => simp [extract_violations_loop, hev] at h
    | ok sv =>
      cases hl : extract_violations_loop rest with
      | error e => simp [extract_violations_loop, hev, hl] at h
      | ok srest =>
        simp only [extract_violations_loop, hev, hl, Except.ok.injEq] at h
        subst h
        obtain ⟨hlen, hpt⟩ := ih srest hl
        refine ⟨by simp [hlen], ?_⟩
        intro i hv ho
        cases i with
        | zero => simpa using hev
        | succ n =>
          have hv' : n < rest.length := Nat.lt_of_succ_lt_succ (by simpa using hv)
          have ho' : n < srest.length := Nat.lt_of_succ_lt_succ (by simpa using ho)
          simpa using hpt n hv' ho'

/-- Claim C5: for every input mapping whose `scan_summary` value is the
mapping `sm` (the empty mapping when the block is absent, by the `.get`
default), a successful extraction yields a summary whose
`total_violations` is the `violated_policies` count of `sm` and whose
`high`, `medium`, `low` are the same-named counts of `sm`, each
defaulting to 0 when the key is absent. -/
theorem C5_summary_extraction (fs sm : List (String × JValue)) (f : JValue)
    (hsm : pyGet (JValue.obj fs) "scan_summary" (JValue.obj []) = .ok (JValue.obj sm))
    (hex : extract_relevant_findings (JValue.obj fs) = .ok f) :
    getItemStr f "summary" = .ok (JValue.obj
      [("total_violations", (lookupField sm "violated_policies").getD (JValue.num 0)),
       ("high", (lookupField sm "high").getD (JValue.num 0)),
       ("medium", (lookupField sm "medium").getD (JValue.num 0)),
       ("low", (lookupField sm "low").getD (JValue.num 0))]) := by
  have hsm' : (lookupField fs "scan_summary").getD (JValue.obj []) = JValue.obj sm := by
    simpa [pyGet] using hsm
  simp only [extract_relevant_findings, pyGet, hsm'] at hex
  split at hex
  · exact Except.noConfusion hex
  · split at hex
    · exact Except.noConfusion hex
    · injection hex with hex
      subst hex
      simp [getItemStr, lookupField]

/-- Concrete instance of C5: an input missing `scan_summary` (and
everything else) yields the all-zero summary. -/
theorem C5_witness : getItemStr emptyFindings "summary" = .ok zeroSummary :=
  C5_summary_extraction [] [] emptyFindings rfl rfl

/-- Claim C6: for every input mapping whose `violations` value is the
sequence `vs` (empty when the key is absent, by the `.get` default), a
successful extraction yields a violations sequence of the same length
whose element at each index is the loop body's result on the input
element at that index — no reordering, dropping or deduplication — and
the loop body copies exactly the eight fields verbatim, absent fields
becoming null. -/
theorem C6_violations_extraction (fs : List (String × JValue)) (vs out : List JValue)
    (su : JValue)
    (hvs : pyGet (JValue.obj fs) "violations" (JValue.arr []) = .ok (JValue.arr vs))
    (hex : extract_relevant_findings (JValue.obj fs) =
      .ok (JValue.obj [("summary", su), ("violations", JValue.arr out)])) :
    out.length = vs.length ∧
    (∀ i (hv : i < vs.length) (ho : i < out.length),
      extract_violation (vs.get ⟨i, hv⟩) = .ok (out.get ⟨i, ho⟩)) ∧
    (∀ velems : List (String × JValue),
      extract_violation (JValue.obj velems) = .ok (JValue.obj
        [("rule_id", (lookupField velems "rule_id").getD JValue.null),
         ("rule_name", (lookupField velems "rule_name").getD JValue.null),
         ("severity", (lookupField velems "severity").getD JValue.null),
         ("description", (lookupField velems "description").getD JValue.null),
         ("resource_type", (lookupField velems "resource_type").getD JValue.null),
         ("resource_name", (lookupField velems "resource_name").getD JValue.null),
         ("file", (lookupField velems "file").getD JValue.null),
         ("line", (lookupField velems "line").getD JValue.null)])) := by
  have hvs' : (lookupField fs "violations").getD (JValue.arr []) = JValue.arr vs := by
    simpa [pyGet] using hvs
  simp only [extract_relevant_findings, pyGet, hvs', pyIter] at hex
  cases hsm : (lookupField fs "scan_summary").getD (JValue.obj []) with
  | null => simp [hsm] at hex
  | bool b => simp [hsm] at hex
  | num n => simp [hsm] at hex
  | str st => simp [hsm] at hex
  | arr xs => simp [hsm] at hex
  | obj sm =>
    simp only [hsm] at hex
    cases hl : extract_violations_loop vs with
    | error e => simp [hl] at hex
    | ok sV =>
      simp only [hl, Except.ok.injEq, JValue.obj.injEq, List.cons.injEq, Prod.mk.injEq,
        JValue.arr.injEq, and_true, true_and] at hex
      obtain ⟨-, hout⟩ := hex
      subst hout
      obtain ⟨hlen, hpt⟩ := extract_violations_loop_pointwise vs sV hl
      exact ⟨hlen, hpt, fun velems => rfl⟩

/-- Concrete instance of C6: the three-element mixed-severity list is
mapped elementwise in order, with length preserved. -/
theorem C6_witness :
    extract_violation mixedV1 = .ok mixedSV1 ∧
    extract_violation mixedV2 = .ok mixedSV2 ∧
    extract_violation mixedV3 = .ok mixedSV3 ∧
    ([mixedSV1, mixedSV2, mixedSV3] : List JValue).length =
      ([mixedV1, mixedV2, mixedV3] : List JValue).length := by
  have h := C6_violations_extraction [("violations", JValue.arr [mixedV1, mixedV2, mixedV3])]
    [mixedV1, mixedV2, mixedV3] [mixedSV1, mixedSV2, mixedSV3] zeroSummary rfl rfl
  exact ⟨h.2.1 0 (by decide) (by decide), h.2.1 1 (by decide) (by decide),
    h.2.1 2 (by decide) (by decide), h.1⟩

/-- Every non-raising run of the handler body produces a response whose
status code is 400 (missing input) or 200 (completed pipeline). -/
theorem handler_body_ok_status (w : World) (s : GState) (event r : JValue) (s1 : GState)
    (h : handler_body w s event = (.ok r, s1)) :
    statusCodeOf r = some (JValue.num 400) ∨ statusCodeOf r = some (JValue.num 200) := by
  unfold handler_body at h
  split at h
  · exact absurd h (by simp)
  · split at h
    · simp only [Prod.mk.injEq, Except.ok.injEq] at h
      obtain ⟨h1, -⟩ := h
      subst h1
      left
      rfl
    · split at h
      · exact absurd h (by simp)
      · try simp only [] at h
        repeat' split at h
        all_goals simp at h
        all_goals obtain ⟨h1, -⟩ := h
        all_goals subst h1
        all_goals right
        all_goals rfl

/-- Claim C4: for every request and every exception raised inside the
handler body, the handler catches it and returns the 500 response with
the exception description; and every invocation returns a structured
response whose status code is 200, 400 or 500 — never an unhandled
fault. -/
theorem C4_handler_catches_all (w : World) (s : GState) (event : JValue) :
    (∀ e s1, handler_body w s event = (.error e, s1) →
      lambda_handler w s event =
        (JValue.obj [("statusCode", JValue.num 500),
          ("error", JValue.str (PyErr.toStr e))], s1)) ∧
    (statusCodeOf (lambda_handler w s event).1 = some (JValue.num 200) ∨
     statusCodeOf (lambda_handler w s event).1 = some (JValue.num 400) ∨
     statusCodeOf (lambda_handler w s event).1 = some (JValue.num 500)) := by
  constructor
  · intro e s1 h
    simp [lambda_handler, h]
  · rcases hb : handler_body w s event with ⟨res, s1⟩
    cases res with
    | error e => right; right; simp [lambda_handler, hb, statusCodeOf, lookupField]
    | ok r =>
      rcases handler_body_ok_status w s event r s1 hb with h4 | h2
      · right; left; simp [lambda_handler, hb, h4]
      · left; simp [lambda_handler, hb, h2]

/-- Concrete instance of C4: a truthy non-mapping `results` makes the
extraction stage raise `AttributeError`, which the handler converts into
the 500 response. -/
theorem C4_witness :
    lambda_handler wSecretFail initState (JValue.obj [("results", JValue.num 5)]) =
      (JValue.obj [("statusCode", JValue.num 500),
        ("error", JValue.str "'int' object has no attribute 'get'")], initState) :=
  (C4_handler_catches_all wSecretFail initState (JValue.obj [("results", JValue.num 5)])).1
    (PyErr.attributeError "'int' object has no attribute 'get'") initState rfl

/-- Claim C2: with a resolved credential, a non-2xx response from the LLM
endpoint (or a response whose shape cannot be parsed) makes `call_gemini`
return a descriptive error string instead of raising, and the handler
returns status 200 with that string as `ai_review`. -/
theorem C2_llm_failure_returns_200 (w : World) (s s1 : GState)
    (event results findings key su : JValue)
    (hres : pyGet event "results" JValue.null = .ok results)
    (htr : truthy results = true)
    (hex : extract_relevant_findings results = .ok findings)
    (hkey : get_gemini_api_key w s = (.ok key, s1))
    (hsu : getItemStr findings "summary" = .ok su) :
    (∀ body, w.httpOutcome = .httpError body →
      lambda_handler w s event =
        (JValue.obj [("statusCode", JValue.num 200), ("verdict_summary", su),
          ("ai_review", JValue.str ("Gemini API HTTP error: " ++ body))], s1)) ∧
    (∀ body e, w.httpOutcome = .success body →
      gemini_parse_response w body = .error e →
      lambda_handler w s event =
        (JValue.obj [("statusCode", JValue.num 200), ("verdict_summary", su),
          ("ai_review",
            JValue.str ("Unexpected error calling Gemini: " ++ PyErr.toStr e))], s1)) := by
  constructor
  · intro body hhttp
    simp [lambda_handler, handler_body, call_gemini, hres, htr, hex, hkey, hsu, hhttp]
  · intro body e hhttp hparse
    simp [lambda_handler, handler_body, call_gemini, hres, htr, hex, hkey, hsu, hhttp, hparse]

/-- Concrete instance of C2: a 429-style HTTP error body surfaces as the
review text of a 200 response. -/
theorem C2_witness :
    lambda_handler wHttpErr initState sampleEvent =
      (JValue.obj [("statusCode", JValue.num 200), ("verdict_summary", sampleSummary),
        ("ai_review", JValue.str "Gemini API HTTP error: quota exceeded")], keyState) :=
  (C2_llm_failure_returns_200 wHttpErr initState keyState sampleEvent sampleResults
    sampleFindings (JValue.str "k-123") sampleSummary rfl rfl rfl rfl rfl).1
    "quota exceeded" rfl

/-- Counterexample to claim C1 as stated: with non-empty results and a
failing secret store, the response is the 500 error object — the failure
is NOT converted into review content with status 200. -/
theorem C1_counterexample :
    (lambda_handler wSecretFail initState sampleEvent).1 =
      JValue.obj [("statusCode", JValue.num 500),
        ("error", JValue.str "Secrets Manager unavailable")] ∧
    statusCodeOf (lambda_handler wSecretFail initState sampleEvent).1 =
      some (JValue.num 500) :=
  ⟨rfl, rfl⟩

/-- Claim C1 (amended): the credential is resolved before the try block of
`call_gemini`, so a secret-retrieval failure propagates out of the Review
Client and is caught at the handler's top level, producing the 500
response with the exception description (not a 200 with the error as
review content). -/
theorem C1_secret_failure_returns_500 (w : World) (s : GState)
    (event results findings : JValue) (e : PyErr)
    (hres : pyGet event "results" JValue.null = .ok results)
    (htr : truthy results = true)
    (hex : extract_relevant_findings results = .ok findings)
    (hcache : truthy s.geminiApiKey = false)
    (hfail : fetch_secret_key w = .error e) :
    lambda_handler w s event =
      (JValue.obj [("statusCode", JValue.num 500),
        ("error", JValue.str (PyErr.toStr e))],
       { s with fetchCount := s.fetchCount + 1 }) := by
  simp [lambda_handler, handler_body, call_gemini, get_gemini_api_key,
    hres, htr, hex, hcache, hfail]

/-- Concrete instance of amended C1: the failing secret store yields the
500 response after one (failed) fetch. -/
theorem C1_witness :
    lambda_handler wSecretFail initState sampleEvent =
      (JValue.obj [("statusCode", JValue.num 500),
        ("error", JValue.str "Secrets Manager unavailable")],
       { geminiApiKey := JValue.null, fetchCount := 1 }) :=
  C1_secret_failure_returns_500 wSecretFail initState sampleEvent sampleResults
    sampleFindings (PyErr.other "Secrets Manager unavailable") rfl rfl rfl rfl rfl

/-- Allocation leaves every pre-existing address unchanged. -/
theorem halloc_cell_lt (h : Heap) (c : HCell) (a : Nat) (ha : a < h.next) :
    (halloc h c).1.cell a = h.cell a := by
  simp [halloc, Nat.ne_of_lt ha]

/-- The extraction loop only allocates fresh cells and mutates the output
list object: `next` is monotone and every pre-existing address other than
the output list keeps its cell. -/
theorem extractLoopH_frame (noneRef outViol : Nat) (vrefs : List Nat) :
    ∀ h hF, extractLoopH noneRef outViol h vrefs = .ok hF →
      h.next ≤ hF.next ∧
      ∀ a, a < h.next → a ≠ outViol → hF.cell a = h.cell a := by
  induction vrefs with
  | nil =>
    intro h hF hk
    simp only [extractLoopH, Except.ok.injEq] at hk
    subst hk
    exact ⟨Nat.le_refl _, fun a _ _ => rfl⟩
  | cons v rest ih =>
    intro h hF hk
    simp only [extractLoopH] at hk
    cases hev : extract_violationH h noneRef v with
    | error e => rw [hev] at hk; exact Except.noConfusion hk
    | ok pr =>
      rw [hev] at hk
      have hsub : ∃ fields, pr = halloc h (.hdict fields) := by
        unfold extract_violationH at hev
        cases hfld : hViolationFields h noneRef v with
        | error e => rw [hfld] at hev; exact Except.noConfusion hev
        | ok fields =>
          rw [hfld] at hev
          injection hev with hev
          exact ⟨fields, hev.symm⟩
      obtain ⟨fields, rfl⟩ := hsub
      cases hcell : (halloc h (.hdict fields)).1.cell outViol with
      | hdict f2 => simp [hcell] at hk
      | hscalar v2 => simp [hcell] at hk
      | hlist elems =>
        simp only [hcell] at hk
        obtain ⟨ihnext, ihcell⟩ := ih _ hF hk
        have h2n : (hupdate (halloc h (.hdict fields)).1 outViol
            (.hlist (elems ++ [(halloc h (.hdict fields)).2]))).next = h.next + 1 := rfl
        constructor
        · omega
        · intro a ha hne
          rw [ihcell a (by omega) hne]
          simp [hupdate, halloc, hne, Nat.ne_of_lt ha]

/-- Claim C10: the heap extractor mutates nothing that existed before the
call — every pre-existing address keeps its cell, so the input mapping,
its violations list, its elements and its summary block are unchanged —
and the returned structure is a freshly allocated dict whose summary dict
and violations list are freshly allocated as well (no sharing of the
input's top-level containers). -/
theorem C10_extract_no_mutation (h0 : Heap) (trRef : Nat) (hF : Heap) (outRef : Nat)
    (hk : extractH h0 trRef = .ok (hF, outRef)) :
    (∀ a, a < h0.next → hF.cell a = h0.cell a) ∧
    h0.next ≤ outRef ∧
    (∃ sumRef violRef, hF.cell outRef = HCell.hdict
        [("summary", sumRef), ("violations", violRef)] ∧
      h0.next ≤ sumRef ∧ h0.next ≤ violRef) := by
  simp only [extractH] at hk
  repeat' split at hk
  all_goals try exact Except.noConfusion hk
  rename_i vrefs hvcell hFinal hloop
  simp only [Except.ok.injEq, Prod.mk.injEq] at hk
  obtain ⟨hhf, hout⟩ := hk
  subst hhf
  subst hout
  obtain ⟨hlnext, hlcell⟩ := extractLoopH_frame _ _ _ _ _ hloop
  refine ⟨?_, ?_, ?_⟩
  · intro a ha
    rw [hlcell a (by show a < h0.next + 7; omega) (by show a ≠ h0.next + 5; omega)]
    simp only [halloc]
    split_ifs
    all_goals first
      | rfl
      | (exfalso; omega)
  · show h0.next ≤ h0.next + 6
    omega
  · refine ⟨h0.next + 4, h0.next + 5, ?_, by omega, by omega⟩
    show hFinal.cell (h0.next + 6) = _
    rw [hlcell (h0.next + 6) (by show h0.next + 6 < h0.next + 7; omega)
      (by show h0.next + 6 ≠ h0.next + 5; omega)]
    simp only [halloc]
    split_ifs
    all_goals rfl

/-- Concrete instance of C10: on a three-object input heap the extractor
leaves the violation record at address 2 untouched and returns a fresh
address. -/
theorem C10_witness :
    sampleExtractResultHeap.cell 2 = HCell.hdict [] ∧ sampleHeap.next ≤ 9 := by
  have h := C10_extract_no_mutation sampleHeap 0 sampleExtractResultHeap 9 rfl
  exact ⟨(h.1 2 (by decide)).trans rfl, h.2.1⟩
